import Mathlib

/-!
# TCP transport client (openvpn/transport/client/tcpcli.hpp)

A shallow embedding of `openvpn::TCPTransport::Client` and `ClientConfig`.

The client is a callback-driven object running on one event loop.  Each member
function of the source becomes a function on a `World`: the client's own fields
(with the configuration it points to), the ordered record of the calls it has made
to its collaborators (parent, resolver, link, statistics sink), and a counter that
gives each `new LinkImpl(...)` a fresh identity.  Every recorded call carries the
client's fields as they stand when the call is made, so that statements about what a
collaborator can observe during a callback can be read off the record.

Conventions of the embedding:

* A collaborator call is recorded, not executed: what the parent does in reaction to
  a callback (for instance calling `stop()` or `start()` again) is a later operation
  in a sequence of `Op`s.
* The resolver's completion handler and the link's callbacks are inputs (`Op.resolved`,
  `Op.link_read`, `Op.link_error`); they can be delivered in any state.
* The pointers `config`, `config->stats` and, where it is dereferenced under `if (impl)`,
  `impl` are non-null; the `const char*` given to `tcp_error_handler` is a string.
* Dereferencing the resolver iterator at its end has no defined result: `post_start_`
  returns `none` there.

The selection of the data channel implementation (openvpn/crypto/cryptodcsel.hpp) is
embedded in the namespace `CryptoDCSelect` further down.
-/

namespace TCPTransport

/-! ## Data -/

/-- Address family of a resolved endpoint. -/
inductive Family where
  | v4
  | v6
  deriving DecidableEq, Repr

/-- Resolved endpoint, `TCPTransport::Endpoint` (a `boost::asio::ip::tcp::endpoint`):
address family, numeric address and port. -/
structure Endpoint where
  family : Family
  address : Nat
  port : Nat
  deriving DecidableEq, Repr

/-- A default-constructed endpoint: the IPv4 any-address with port 0. -/
def Endpoint.default : Endpoint := ⟨Family.v4, 0, 0⟩

instance : Inhabited Endpoint := ⟨Endpoint.default⟩

/-- Modelled from the spec: `EndpointCache<Endpoint>` is declared in
`openvpn/transport/endpoint_cache.hpp`, which is not among the sources.  The spec gives
it as a boolean "defined" flag plus a stored endpoint, with `set_endpoint` an
unconditional overwrite. -/
structure EndpointCache where
  defined_ : Bool
  endpoint_ : Endpoint
  deriving DecidableEq, Repr

/-- Modelled from the spec: the query `defined()` of the endpoint cache. -/
def EndpointCache.defined (c : EndpointCache) : Bool := c.defined_

/-- Modelled from the spec: the query `endpoint()` of the endpoint cache. -/
def EndpointCache.endpoint (c : EndpointCache) : Endpoint := c.endpoint_

/-- Modelled from the spec: `set_endpoint` of the endpoint cache, an unconditional
overwrite that leaves the cache defined. -/
def EndpointCache.set_endpoint (_c : EndpointCache) (e : Endpoint) : EndpointCache :=
  ⟨true, e⟩

/-- The class `ClientConfig`.  The members `frame` and `stats` are references to
collaborators (frame sizing policy, statistics sink); the statistics sink appears in
the call record, the frame is only handed on to the link. -/
structure ClientConfig where
  server_host : String
  server_port : String
  send_queue_max_size : Nat
  free_list_max_size : Nat
  endpoint_cache : EndpointCache
  deriving DecidableEq, Repr

/-- Payload buffer: its bytes. -/
abbrev Buffer := List Nat

/-- The link object built by `new LinkImpl(io_service, this, server_endpoint,
REMOTE_CONNECT, false, send_queue_max_size, free_list_max_size, frame, stats)`:
the identity of the allocation and the arguments that vary. -/
structure Link where
  id : Nat
  endpoint : Endpoint
  send_queue_max_size : Nat
  free_list_max_size : Nat
  deriving DecidableEq, Repr

/-- A `boost::system::error_code`: category name and value; value 0 means success. -/
structure ErrorCode where
  category : String
  value : Int
  deriving DecidableEq, Repr

/-- The conversion of an error code to `bool`: true when an error is set. -/
def ErrorCode.failed (e : ErrorCode) : Bool := e.value != 0

/-- The text `os << error` writes for an error code: category name, colon, value. -/
def ErrorCode.text (e : ErrorCode) : String := e.category ++ ":" ++ toString e.value

/-- The two exception classes declared by `OPENVPN_EXCEPTION` in this file. -/
inductive ExceptionKind where
  | tcp_transport_resolve_error
  | tcp_transport_error
  deriving DecidableEq, Repr

/-- An exception object handed to the parent: its class and the text given to its
constructor. -/
structure TransportException where
  kind : ExceptionKind
  message : String
  deriving DecidableEq, Repr

/-- Error types passed to the statistics sink. -/
inductive ErrorType where
  | RESOLVE_ERROR
  deriving DecidableEq, Repr

/-- The calls the client makes on its collaborators. -/
inductive Event where
  | transport_pre_resolve
  | transport_connecting
  | transport_recv (buf : Buffer)
  | transport_error (err : TransportException)
  | async_resolve (host port : String)
  | resolver_cancel
  | stats_error (type : ErrorType)
  | link_new (l : Link)
  | link_start (id : Nat)
  | link_stop (id : Nat)
  | link_release (id : Nat)
  | link_send (id : Nat) (buf : Buffer)
  deriving DecidableEq, Repr

/-- The data members of `Client`.  `config` is the configuration the client points
to; `impl` is the link handle (`none` for a null pointer). -/
structure Client where
  config : ClientConfig
  impl : Option Link
  server_endpoint : Endpoint
  halt : Bool
  deriving DecidableEq, Repr

/-- One recorded collaborator call, with the client's fields at the time of the call. -/
structure Call where
  ev : Event
  seen : Client
  deriving DecidableEq, Repr

/-- The client, the record of its collaborator calls so far (oldest first), and the
identity the next allocated link will get. -/
structure World where
  client : Client
  trace : List Call
  next_link : Nat
  deriving DecidableEq, Repr

/-- Record a collaborator call. -/
def emit (e : Event) (w : World) : World :=
  { w with trace := w.trace ++ [⟨e, w.client⟩] }

/-- The answer of the link's `send(BufferAllocated&)`: given the calls made so far and
the buffer, the boolean it returns and the content it leaves in the buffer. -/
abbrev LinkSend := List Call → Buffer → Bool × Buffer

/-! ## Member functions of `Client` -/

/-- The function `Client::start_impl_`. -/
def start_impl_ (w : World) : World :=
  -- config->endpoint_cache.set_endpoint(server_endpoint);
  let w1 : World :=
    { w with client := { w.client with config := { w.client.config with
        endpoint_cache := w.client.config.endpoint_cache.set_endpoint w.client.server_endpoint } } }
  -- impl.reset(new LinkImpl(...));
  let l : Link :=
    ⟨w1.next_link, w1.client.server_endpoint,
      w1.client.config.send_queue_max_size, w1.client.config.free_list_max_size⟩
  let w2 : World := { emit (Event.link_new l) w1 with next_link := w1.next_link + 1 }
  let w3 : World := { w2 with client := { w2.client with impl := some l } }
  let w4 : World :=
    match w1.client.impl with
    | some old => emit (Event.link_release old.id) w3
    | none => w3
  -- impl->start();
  let w5 := emit (Event.link_start l.id) w4
  -- parent.transport_connecting();
  emit Event.transport_connecting w5

/-- The function `Client::stop_`. -/
def stop_ (w : World) : World :=
  let w1 : World :=
    match w.client.impl with
    | some l =>
      -- impl->stop(); impl.reset();
      let wa := emit (Event.link_stop l.id) w
      let wb : World := { wa with client := { wa.client with impl := none } }
      emit (Event.link_release l.id) wb
    | none => w
  -- resolver.cancel();
  let w2 := emit Event.resolver_cancel w1
  -- halt = true;
  { w2 with client := { w2.client with halt := true } }

/-- The function `Client::stop`. -/
def stop (w : World) : World := stop_ w

/-- The destructor `Client::~Client`. -/
def destroy (w : World) : World := stop_ w

/-- The function `Client::start`. -/
def start (w : World) : World :=
  if w.client.impl.isNone then
    -- halt = false;
    let w1 : World := { w with client := { w.client with halt := false } }
    if w1.client.config.endpoint_cache.defined then
      let w2 : World :=
        { w1 with client := { w1.client with
            server_endpoint := w1.client.config.endpoint_cache.endpoint } }
      start_impl_ w2
    else
      let w2 := emit Event.transport_pre_resolve w1
      emit (Event.async_resolve w2.client.config.server_host w2.client.config.server_port) w2
  else
    w

/-- The text composed in `Client::post_start_` for a resolve error:
`"DNS resolve error on '" << server_host << "' for TCP session: " << error`. -/
def resolve_error_text (server_host : String) (error : ErrorCode) : String :=
  "DNS resolve error on \x27" ++ server_host ++ "\x27 for TCP session: " ++ error.text

/-- The text composed in `Client::tcp_error_handler`:
`"Transport error on '" << server_host << ": " << error`. -/
def transport_error_text (server_host : String) (error : String) : String :=
  "Transport error on \x27" ++ server_host ++ ": " ++ error

/-- The function `Client::post_start_`, the completion handler of the resolve query.
`endpoint_iterator` is the ordered candidate sequence; dereferencing it when it is at
its end has no defined result (`none`). -/
def post_start_ (error : ErrorCode) (endpoint_iterator : List Endpoint) (w : World) :
    Option World :=
  if !w.client.halt then
    if !error.failed then
      match endpoint_iterator with
      | [] => none
      | e :: _ =>
        some (start_impl_ { w with client := { w.client with server_endpoint := e } })
    else
      let os : String := resolve_error_text w.client.config.server_host error
      let w1 := emit (Event.stats_error ErrorType.RESOLVE_ERROR) w
      let w2 := stop w1
      some (emit (Event.transport_error ⟨ExceptionKind.tcp_transport_resolve_error, os⟩) w2)
  else
    some w

/-- The function `Client::tcp_read_handler`, called by the link. -/
def tcp_read_handler (buf : Buffer) (w : World) : World :=
  emit (Event.transport_recv buf) w

/-- The function `Client::tcp_error_handler`, called by the link. -/
def tcp_error_handler (error : String) (w : World) : World :=
  let os : String := transport_error_text w.client.config.server_host error
  let w1 := stop w
  emit (Event.transport_error ⟨ExceptionKind.tcp_transport_error, os⟩) w1

/-- The function `Client::send`: the boolean returned, the content of the caller's
buffer afterwards, and the world. -/
def send (link_send : LinkSend) (buf : Buffer) (w : World) : Bool × Buffer × World :=
  match w.client.impl with
  | some l =>
    let r := link_send w.trace buf
    (r.1, r.2, emit (Event.link_send l.id buf) w)
  | none => (false, buf, w)

/-- The function `Client::send_const`: the argument is copied into a fresh
`BufferAllocated` and the copy is handed to the link. -/
def send_const (link_send : LinkSend) (cbuf : Buffer) (w : World) : Bool × Buffer × World :=
  match w.client.impl with
  | some l =>
    let buf : Buffer := cbuf
    let r := link_send w.trace buf
    (r.1, cbuf, emit (Event.link_send l.id buf) w)
  | none => (false, cbuf, w)

/-- The function `Client::transport_send`. -/
def transport_send (link_send : LinkSend) (buf : Buffer) (w : World) :
    Bool × Buffer × World :=
  send link_send buf w

/-- The function `Client::transport_send_const`. -/
def transport_send_const (link_send : LinkSend) (buf : Buffer) (w : World) :
    Bool × Buffer × World :=
  send_const link_send buf w

/-! ## Sequences of operations and events -/

/-- The operations the parent can invoke on a client and the events the resolver and
the link can deliver to it. -/
inductive Op where
  | start
  | stop
  | send (buf : Buffer)
  | send_const (buf : Buffer)
  | resolved (error : ErrorCode) (endpoint_iterator : List Endpoint)
  | link_read (buf : Buffer)
  | link_error (error : String)
  deriving DecidableEq, Repr

/-- One operation or event applied to the world. -/
def step (link_send : LinkSend) : Op → World → Option World
  | Op.start, w => some (start w)
  | Op.stop, w => some (stop w)
  | Op.send buf, w => some (transport_send link_send buf w).2.2
  | Op.send_const buf, w => some (transport_send_const link_send buf w).2.2
  | Op.resolved error it, w => post_start_ error it w
  | Op.link_read buf, w => some (tcp_read_handler buf w)
  | Op.link_error error, w => some (tcp_error_handler error w)

/-- A sequence of operations and events applied in order. -/
def run (link_send : LinkSend) : List Op → World → Option World
  | [], w => some w
  | o :: os, w => (step link_send o w).bind (run link_send os)

/-- The events of the recorded calls, oldest first. -/
def World.events (w : World) : List Event := w.trace.map Call.ev

/-- Recognises a call of the link's `stop`. -/
def Event.isLinkStop : Event → Bool
  | Event.link_stop _ => true
  | _ => false

/-- Recognises the construction or the start of a link. -/
def Event.isLinkBegin : Event → Bool
  | Event.link_new _ => true
  | Event.link_start _ => true
  | _ => false

/-- Recognises a resolve query. -/
def Event.isResolve : Event → Bool
  | Event.async_resolve _ _ => true
  | _ => false

/-- Recognises an error delivered to the parent. -/
def Event.isError : Event → Bool
  | Event.transport_error _ => true
  | _ => false

/-- The text `s` occurs in the text `t`. -/
def occursIn (s t : String) : Prop := s.data <:+: t.data

/-- Going from `w` to `w1`, the last call made is an error delivered to the parent, the
client seen by that call holds no link and is halted (and is the client of `w1`), and
the calls made before it since `w` contain the resolver cancel of `stop()`, the stop of
the link `w` held (if any), and no other error delivered to the parent. -/
def ReportsAfterTeardown (w w1 : World) : Prop :=
  ∃ (pre : List Call) (c : Client) (err : TransportException),
    w1.trace = w.trace ++ pre ++ [⟨Event.transport_error err, c⟩] ∧
    c.impl = none ∧ c.halt = true ∧ w1.client = c ∧
    Event.resolver_cancel ∈ pre.map Call.ev ∧
    (∀ l, w.client.impl = some l → Event.link_stop l.id ∈ pre.map Call.ev) ∧
    (∀ x ∈ pre, x.ev.isError = false)

/-- The client once its working endpoint has been written into the endpoint cache. -/
def Client.withCacheWritten (c : Client) : Client :=
  { c with config := { c.config with
      endpoint_cache := c.config.endpoint_cache.set_endpoint c.server_endpoint } }

/-- The link that `start_impl_` constructs in the world `w`. -/
def World.newLink (w : World) : Link :=
  ⟨w.next_link, w.client.server_endpoint,
    w.client.config.send_queue_max_size, w.client.config.free_list_max_size⟩

/-! ## Endpoint queries and construction -/

namespace IP

/-- An `IP::Addr` as `IP::Addr::from_asio` builds it from the address of an endpoint:
the IP version and the numeric address.  The class is declared in a header that is not
among the sources; its `version_string()` and `to_string()` are taken as parameters
where they are used. -/
structure Addr where
  ver : Family
  value : Nat
  deriving DecidableEq, Repr

/-- The conversion `IP::Addr::from_asio(server_endpoint.address())`. -/
def Addr.from_asio (e : Endpoint) : Addr := ⟨e.family, e.address⟩

end IP

/-- The function `Client::server_endpoint_addr`. -/
def server_endpoint_addr (w : World) : IP.Addr :=
  IP.Addr.from_asio w.client.server_endpoint

/-- The four strings `Client::server_endpoint_info` writes through its reference
parameters. -/
structure EndpointInfo where
  host : String
  port : String
  proto : String
  ip_addr : String
  deriving DecidableEq, Repr

/-- The function `Client::server_endpoint_info` (a `const` member function): the
strings written and the world afterwards.  `version_string` and `to_string` are the
member functions of `IP::Addr` of these names. -/
def server_endpoint_info (version_string to_string : IP.Addr → String) (w : World) :
    EndpointInfo × World :=
  let addr := server_endpoint_addr w
  (⟨w.client.config.server_host, w.client.config.server_port,
    "TCP" ++ version_string addr, to_string addr⟩, w)

/-- Modelled from the spec: a default-constructed `EndpointCache` (its constructor is
in a header that is not among the sources) has no endpoint cached. -/
def EndpointCache.empty : EndpointCache := ⟨false, Endpoint.default⟩

/-- The function `ClientConfig::new_obj` with the private constructor
`ClientConfig::ClientConfig`: queue bound 64, free-list bound 8, the other members
default-constructed. -/
def ClientConfig.new_obj : ClientConfig :=
  ⟨"", "", 64, 8, EndpointCache.empty⟩

/-- The function `ClientConfig::new_client_obj` with the constructor `Client::Client`:
a client bound to this configuration, `halt(false)`, the link handle and the working
endpoint default-constructed; no collaborator has been called and no link allocated. -/
def ClientConfig.new_client_obj (config : ClientConfig) : World :=
  ⟨⟨config, none, Endpoint.default, false⟩, [], 0⟩

end TCPTransport

/-! # Data channel selection (openvpn/crypto/cryptodcsel.hpp) -/

namespace CryptoDCSelect

/-- An entry of the algorithm table, `CryptoAlgs::Alg`: its name and its flags. -/
structure Alg where
  name : String
  flags : Nat
  deriving DecidableEq, Repr

/-- The negotiated settings, `CryptoDCSettingsData`: the index of the cipher and of the
digest. -/
structure CryptoDCSettingsData where
  cipher : Nat
  digest : Nat
  deriving DecidableEq, Repr

/-- The object `new_obj` returns: one of the two pipeline constructions, built from the
settings. -/
inductive CryptoDCContext where
  | CryptoContextCHM (dc_settings : CryptoDCSettingsData)
  | AEADCryptoContext (dc_settings : CryptoDCSettingsData)
  deriving DecidableEq, Repr

/-- The exception `crypto_dc_select` with the text streamed into `OPENVPN_THROW`. -/
structure crypto_dc_select where
  message : String
  deriving DecidableEq, Repr

/-- The function `CryptoDCSelect::new_obj`.  The flag constants `CryptoAlgs::CBC_HMAC`
and `CryptoAlgs::AEAD` and the table lookup `CryptoAlgs::get` are declared in headers
that are not among the sources and are parameters here. -/
def new_obj (CBC_HMAC AEAD : Nat) (get : Nat → Alg) (dc_settings : CryptoDCSettingsData) :
    Except crypto_dc_select CryptoDCContext :=
  let alg := get dc_settings.cipher
  if alg.flags &&& CBC_HMAC ≠ 0 then
    Except.ok (CryptoDCContext.CryptoContextCHM dc_settings)
  else if alg.flags &&& AEAD ≠ 0 then
    Except.ok (CryptoDCContext.AEADCryptoContext dc_settings)
  else
    Except.error ⟨alg.name ++ ": only CBC/HMAC and AEAD cipher modes supported"⟩

/-- A sample algorithm table: index 0 a CBC cipher, 1 an AEAD cipher, 2 an entry with
both flags, anything else an entry with neither. -/
def sampleGet : Nat → Alg
  | 0 => ⟨"AES-256-CBC", 1⟩
  | 1 => ⟨"AES-256-GCM", 2⟩
  | 2 => ⟨"BOTH", 3⟩
  | _ => ⟨"none", 4⟩

end CryptoDCSelect

namespace TCPTransport

/-! ## Sample worlds -/

/-- A configuration with no endpoint cached. -/
def sampleConfig : ClientConfig :=
  ⟨"vpn.example.net", "1194", 64, 8, ⟨false, Endpoint.default⟩⟩

/-- A client built on `sampleConfig`, not started. -/
def sampleIdle : World :=
  ⟨⟨sampleConfig, none, Endpoint.default, false⟩, [], 0⟩

/-- A client whose configuration has the endpoint 10.0.0.1:1194 cached. -/
def sampleCached : World :=
  ⟨⟨{ sampleConfig with endpoint_cache := ⟨true, ⟨Family.v4, 167772161, 1194⟩⟩ },
      none, Endpoint.default, false⟩, [], 0⟩

/-- A client with an active link, reached by `start` on `sampleCached`. -/
def sampleActive : World := start sampleCached

/-- A resolver error. -/
def sampleError : ErrorCode := ⟨"asio.netdb", 1⟩

/-- A link `send` that accepts every buffer and consumes it. -/
def acceptAll : LinkSend := fun _ _ => (true, [])

/-! ## Basic facts about `stop` -/

theorem stop_client (w : World) :
    (stop w).client = { w.client with impl := none, halt := true } := by
  unfold stop stop_ emit
  cases h : w.client.impl <;> simp [h]

theorem stop_trace_none (w : World) (h : w.client.impl = none) :
    (stop w).trace = w.trace ++ [⟨Event.resolver_cancel, w.client⟩] := by
  unfold stop stop_ emit
  simp [h]

theorem stop_trace_some (w : World) (l : Link) (h : w.client.impl = some l) :
    (stop w).trace = w.trace ++
      [⟨Event.link_stop l.id, w.client⟩,
       ⟨Event.link_release l.id, { w.client with impl := none }⟩,
       ⟨Event.resolver_cancel, { w.client with impl := none }⟩] := by
  unfold stop stop_ emit
  simp [h]

theorem stop_next_link (w : World) : (stop w).next_link = w.next_link := by
  unfold stop stop_ emit
  cases h : w.client.impl <;> simp [h]

/-! ## Basic facts about `post_start_` -/

theorem post_start_halted (w : World) (error : ErrorCode) (it : List Endpoint)
    (hhalt : w.client.halt = true) : post_start_ error it w = some w := by
  simp [post_start_, hhalt]

theorem post_start_failed (w : World) (error : ErrorCode) (it : List Endpoint)
    (hhalt : w.client.halt = false) (herr : error.failed = true) :
    post_start_ error it w =
      some (emit (Event.transport_error ⟨ExceptionKind.tcp_transport_resolve_error,
          resolve_error_text w.client.config.server_host error⟩)
        (stop (emit (Event.stats_error ErrorType.RESOLVE_ERROR) w))) := by
  simp [post_start_, hhalt, herr]

theorem post_start_succeeded (w : World) (error : ErrorCode) (e : Endpoint)
    (rest : List Endpoint) (hhalt : w.client.halt = false) (herr : error.failed = false) :
    post_start_ error (e :: rest) w =
      some (start_impl_ { w with client := { w.client with server_endpoint := e } }) := by
  simp [post_start_, hhalt, herr]

/-! ## Resolve failure -/

/-- C1: on a client that is not halted and holds no link, a resolve completion that
carries an error returns, and what it adds to the call record is exactly: one
`RESOLVE_ERROR` call on the statistics sink, the resolver cancel made by `stop()`, and
one resolve error delivered to the parent.  No link is constructed or started, the
client ends halted with no link handle, and the working endpoint and the endpoint
cache are unchanged. -/
theorem C1_resolve_failure (w : World) (error : ErrorCode) (it : List Endpoint)
    (hhalt : w.client.halt = false) (himpl : w.client.impl = none)
    (herr : error.failed = true) :
    ∃ w1, post_start_ error it w = some w1 ∧
      w1.trace = w.trace ++
        [⟨Event.stats_error ErrorType.RESOLVE_ERROR, w.client⟩,
         ⟨Event.resolver_cancel, w.client⟩,
         ⟨Event.transport_error ⟨ExceptionKind.tcp_transport_resolve_error,
             resolve_error_text w.client.config.server_host error⟩,
           { w.client with halt := true }⟩] ∧
      w1.client.halt = true ∧ w1.client.impl = none ∧
      w1.client.server_endpoint = w.client.server_endpoint ∧
      w1.client.config = w.client.config ∧
      w1.next_link = w.next_link := by
  refine ⟨_, post_start_failed w error it hhalt herr, ?_⟩
  · have hc := stop_client (emit (Event.stats_error ErrorType.RESOLVE_ERROR) w)
    have ht := stop_trace_none (emit (Event.stats_error ErrorType.RESOLVE_ERROR) w) himpl
    have hn := stop_next_link (emit (Event.stats_error ErrorType.RESOLVE_ERROR) w)
    simp only [emit] at hc ht hn ⊢
    simp [hc, ht, hn, himpl]

theorem C1_resolve_failure_witness :
    ∃ w1, post_start_ sampleError [] (start sampleIdle) = some w1 ∧
      w1.events = [Event.transport_pre_resolve,
        Event.async_resolve "vpn.example.net" "1194",
        Event.stats_error ErrorType.RESOLVE_ERROR,
        Event.resolver_cancel,
        Event.transport_error ⟨ExceptionKind.tcp_transport_resolve_error,
          "DNS resolve error on \x27vpn.example.net\x27 for TCP session: asio.netdb:1"⟩] ∧
      w1.client.halt = true ∧ w1.client.impl = none := by
  obtain ⟨w1, h1, h2, h3, h4, _⟩ :=
    C1_resolve_failure (start sampleIdle) sampleError [] (by decide) (by decide) (by decide)
  refine ⟨w1, h1, ?_, h3, h4⟩
  rw [World.events, h2]
  decide

/-! ## Teardown before report -/

theorem emit_after_stop_reports (w0 w : World) (pre0 : List Call)
    (h0 : w.trace = w0.trace ++ pre0) (hc : w.client.impl = w0.client.impl)
    (hq : ∀ x ∈ pre0, x.ev.isError = false) (err : TransportException) :
    ReportsAfterTeardown w0 (emit (Event.transport_error err) (stop w)) := by
  cases himpl : w.client.impl with
  | none =>
    refine ⟨pre0 ++ [⟨Event.resolver_cancel, w.client⟩], (stop w).client, err, ?_, ?_, ?_,
      ?_, ?_, ?_, ?_⟩
    · simp [emit, stop_trace_none w himpl, h0]
    · simp [stop_client]
    · simp [stop_client]
    · simp [emit]
    · simp
    · intro l hl
      rw [← hc, himpl] at hl
      cases hl
    · intro x hx
      rcases List.mem_append.mp hx with hx | hx
      · exact hq x hx
      · simp at hx
        subst hx
        rfl
  | some l =>
    refine ⟨pre0 ++ [⟨Event.link_stop l.id, w.client⟩,
        ⟨Event.link_release l.id, { w.client with impl := none }⟩,
        ⟨Event.resolver_cancel, { w.client with impl := none }⟩], (stop w).client, err,
      ?_, ?_, ?_, ?_, ?_, ?_, ?_⟩
    · simp [emit, stop_trace_some w l himpl, h0]
    · simp [stop_client]
    · simp [stop_client]
    · simp [emit]
    · simp
    · intro l1 hl
      rw [← hc, himpl] at hl
      cases hl
      simp
    · intro x hx
      rcases List.mem_append.mp hx with hx | hx
      · exact hq x hx
      · simp at hx
        rcases hx with hx | hx | hx <;> subst hx <;> rfl

/-- C2: on both error paths the teardown comes before the report.  For a link error
callback on any client, and for a resolve completion carrying an error on any client
that is not halted, the handler returns and the last call it makes is the parent's
error handler; when that call is made the client holds no link handle and is halted;
the resolver cancel of `stop()` and, if a link was held, the stop of that link are
recorded before it. -/
theorem C2_teardown_before_report (w : World) :
    (∀ m : String, ReportsAfterTeardown w (tcp_error_handler m w)) ∧
    (∀ (error : ErrorCode) (it : List Endpoint),
      w.client.halt = false → error.failed = true →
      ∃ w1, post_start_ error it w = some w1 ∧ ReportsAfterTeardown w w1) := by
  constructor
  · intro m
    exact emit_after_stop_reports w w [] (by simp) rfl (by simp) _
  · intro error it hhalt herr
    refine ⟨_, post_start_failed w error it hhalt herr, ?_⟩
    refine emit_after_stop_reports w (emit (Event.stats_error ErrorType.RESOLVE_ERROR) w)
      [⟨Event.stats_error ErrorType.RESOLVE_ERROR, w.client⟩] (by simp [emit]) rfl ?_ _
    intro x hx
    simp at hx
    subst hx
    rfl

theorem C2_teardown_before_report_witness :
    ReportsAfterTeardown sampleActive (tcp_error_handler "eof" sampleActive) ∧
    ∃ w1, post_start_ sampleError [] (start sampleIdle) = some w1 ∧
      ReportsAfterTeardown (start sampleIdle) w1 :=
  ⟨(C2_teardown_before_report sampleActive).1 "eof",
   (C2_teardown_before_report (start sampleIdle)).2 sampleError [] (by decide) (by decide)⟩

/-! ## Stale resolve completions -/

theorem start_resolving (w : World) (himpl : w.client.impl = none)
    (hcache : w.client.config.endpoint_cache.defined = false) :
    start w =
      ⟨{ w.client with halt := false },
       w.trace ++ [⟨Event.transport_pre_resolve, { w.client with halt := false }⟩,
         ⟨Event.async_resolve w.client.config.server_host w.client.config.server_port,
           { w.client with halt := false }⟩],
       w.next_link⟩ := by
  simp [start, himpl, hcache, emit]

/-- C3: when `start()` has issued a resolve query (no link held, endpoint cache not
defined) and `stop()` is called before the completion arrives, the late completion
returns and changes nothing, whatever error code and candidates it carries: the client
(link handle, working endpoint, halted flag, endpoint cache), the record of collaborator
calls (so no statistics call and no parent event) and the link counter are the same. -/
theorem C3_stale_callback_suppressed (w : World) (error : ErrorCode) (it : List Endpoint)
    (himpl : w.client.impl = none)
    (hcache : w.client.config.endpoint_cache.defined = false) :
    (start w).events = w.events ++
      [Event.transport_pre_resolve,
       Event.async_resolve w.client.config.server_host w.client.config.server_port] ∧
    post_start_ error it (stop (start w)) = some (stop (start w)) := by
  constructor
  · rw [start_resolving w himpl hcache]
    simp [World.events]
  · apply post_start_halted
    simp [stop_client]

theorem C3_stale_callback_suppressed_witness :
    (start sampleIdle).events = sampleIdle.events ++
      [Event.transport_pre_resolve, Event.async_resolve "vpn.example.net" "1194"] ∧
    post_start_ ⟨"system", 0⟩ [⟨Family.v4, 167772161, 1194⟩] (stop (start sampleIdle))
      = some (stop (start sampleIdle)) :=
  C3_stale_callback_suppressed sampleIdle ⟨"system", 0⟩ [⟨Family.v4, 167772161, 1194⟩]
    (by decide) (by decide)

/-! ## The halted client -/

theorem stop_halted_idle (w : World) (hhalt : w.client.halt = true)
    (himpl : w.client.impl = none) : (stop w).client = w.client := by
  rw [stop_client]
  cases hc : w.client with
  | mk config impl server_endpoint halt =>
    rw [hc] at hhalt himpl
    simp only at hhalt himpl
    subst hhalt himpl
    rfl

/-- On a halted client with no link, every operation or event other than `start()`
returns, leaves the client as it is, and records only resolver cancels, buffers handed
to the parent and errors handed to the parent. -/
theorem step_halted (link_send : LinkSend) (o : Op) (w : World)
    (hhalt : w.client.halt = true) (himpl : w.client.impl = none) (ho : o ≠ Op.start) :
    ∃ w1 extra, step link_send o w = some w1 ∧ w1.client = w.client ∧
      w1.trace = w.trace ++ extra ∧ w1.next_link = w.next_link ∧
      ∀ x ∈ extra, x.ev.isLinkStop = false ∧ x.ev.isLinkBegin = false ∧
        x.ev.isResolve = false := by
  cases o with
  | start => exact absurd rfl ho
  | stop =>
    refine ⟨stop w, [⟨Event.resolver_cancel, w.client⟩], rfl,
      stop_halted_idle w hhalt himpl, stop_trace_none w himpl, stop_next_link w, ?_⟩
    intro x hx
    simp at hx
    subst hx
    exact ⟨rfl, rfl, rfl⟩
  | send buf =>
    refine ⟨w, [], ?_, rfl, by simp, rfl, by simp⟩
    simp [step, transport_send, send, himpl]
  | send_const buf =>
    refine ⟨w, [], ?_, rfl, by simp, rfl, by simp⟩
    simp [step, transport_send_const, send_const, himpl]
  | resolved error it =>
    exact ⟨w, [], post_start_halted w error it hhalt, rfl, by simp, rfl, by simp⟩
  | link_read buf =>
    refine ⟨tcp_read_handler buf w, [⟨Event.transport_recv buf, w.client⟩], rfl, rfl, rfl,
      rfl, ?_⟩
    intro x hx
    simp at hx
    subst hx
    exact ⟨rfl, rfl, rfl⟩
  | link_error m =>
    refine ⟨tcp_error_handler m w, [⟨Event.resolver_cancel, w.client⟩,
      ⟨Event.transport_error ⟨ExceptionKind.tcp_transport_error,
        transport_error_text w.client.config.server_host m⟩, w.client⟩], rfl, ?_, ?_, ?_, ?_⟩
    · simp [tcp_error_handler, emit, stop_halted_idle w hhalt himpl]
    · simp [tcp_error_handler, emit, stop_trace_none w himpl,
        stop_halted_idle w hhalt himpl]
    · simp [tcp_error_handler, emit, stop_next_link]
    · intro x hx
      simp at hx
      rcases hx with hx | hx <;> subst hx <;> exact ⟨rfl, rfl, rfl⟩

theorem run_halted (link_send : LinkSend) (ops : List Op) :
    ∀ w : World, w.client.halt = true → w.client.impl = none →
      (∀ o ∈ ops, o ≠ Op.start) →
      ∃ w1 extra, run link_send ops w = some w1 ∧ w1.client = w.client ∧
        w1.trace = w.trace ++ extra ∧ w1.next_link = w.next_link ∧
        ∀ x ∈ extra, x.ev.isLinkStop = false ∧ x.ev.isLinkBegin = false ∧
          x.ev.isResolve = false := by
  induction ops with
  | nil =>
    intro w _ _ _
    exact ⟨w, [], rfl, rfl, by simp, rfl, by simp⟩
  | cons o os ih =>
    intro w hhalt himpl hops
    obtain ⟨w1, ex1, hs, hc1, ht1, hn1, hq1⟩ :=
      step_halted link_send o w hhalt himpl (hops o (List.mem_cons_self o os))
    obtain ⟨w2, ex2, hr, hc2, ht2, hn2, hq2⟩ :=
      ih w1 (by rw [hc1]; exact hhalt) (by rw [hc1]; exact himpl)
        (fun o1 ho1 => hops o1 (List.mem_cons_of_mem o ho1))
    refine ⟨w2, ex1 ++ ex2, ?_, by rw [hc2, hc1], ?_, by rw [hn2, hn1], ?_⟩
    · simp [run, hs, hr]
    · rw [ht2, ht1, List.append_assoc]
    · intro x hx
      rcases List.mem_append.mp hx with hx | hx
      · exact hq1 x hx
      · exact hq2 x hx

theorem countP_eq_zero_of_quiet (extra : List Call)
    (h : ∀ x ∈ extra, x.ev.isLinkStop = false ∧ x.ev.isLinkBegin = false ∧
      x.ev.isResolve = false) :
    (extra.map Call.ev).countP Event.isLinkStop = 0 := by
  rw [List.countP_eq_zero]
  intro e he
  obtain ⟨x, hx, rfl⟩ := List.mem_map.mp he
  simp [(h x hx).1]

/-! ## Idempotence of `stop` -/

/-- C4: `stop()` is idempotent.  From every client, `stop()` leaves no link handle and
`halt = true`; after it, every further sequence of `stop()` calls and resolve
completions (in any order and number) returns and leaves the client exactly as the
first `stop()` left it; over the whole sequence the link's `stop` is called once if a
link was held at the first `stop()` and not at all otherwise. -/
theorem C4_stop_idempotent (link_send : LinkSend) (w : World) (ops : List Op)
    (hops : ∀ o ∈ ops, o = Op.stop ∨ ∃ error it, o = Op.resolved error it) :
    (stop w).client.impl = none ∧ (stop w).client.halt = true ∧
    ∃ w1 extra, run link_send ops (stop w) = some w1 ∧ w1.client = (stop w).client ∧
      w1.trace = w.trace ++ extra ∧
      (extra.map Call.ev).countP Event.isLinkStop = (if w.client.impl.isSome then 1 else 0) := by
  have hi : (stop w).client.impl = none := by simp [stop_client]
  have hh : (stop w).client.halt = true := by simp [stop_client]
  refine ⟨hi, hh, ?_⟩
  have hns : ∀ o ∈ ops, o ≠ Op.start := by
    intro o ho
    rcases hops o ho with h | ⟨e, it, h⟩ <;> subst h <;> simp
  obtain ⟨w1, ex, hr, hc, ht, _, hq⟩ := run_halted link_send ops (stop w) hh hi hns
  have hz := countP_eq_zero_of_quiet ex hq
  cases himpl : w.client.impl with
  | none =>
    refine ⟨w1, [⟨Event.resolver_cancel, w.client⟩] ++ ex, hr, hc, ?_, ?_⟩
    · rw [ht, stop_trace_none w himpl, List.append_assoc]
    · rw [List.map_append, List.countP_append, hz]
      simp [Event.isLinkStop]
  | some l =>
    refine ⟨w1, [⟨Event.link_stop l.id, w.client⟩,
       ⟨Event.link_release l.id, { w.client with impl := none }⟩,
       ⟨Event.resolver_cancel, { w.client with impl := none }⟩] ++ ex, hr, hc, ?_, ?_⟩
    · rw [ht, stop_trace_some w l himpl, List.append_assoc]
    · rw [List.map_append, List.countP_append, hz]
      simp [Event.isLinkStop, List.countP_cons]

theorem C4_stop_idempotent_witness :
    (stop sampleActive).client.impl = none ∧ (stop sampleActive).client.halt = true ∧
    ∃ w1 extra, run acceptAll [Op.stop, Op.resolved sampleError [], Op.stop]
        (stop sampleActive) = some w1 ∧ w1.client = (stop sampleActive).client ∧
      w1.trace = sampleActive.trace ++ extra ∧
      (extra.map Call.ev).countP Event.isLinkStop
        = (if sampleActive.client.impl.isSome then 1 else 0) :=
  C4_stop_idempotent acceptAll sampleActive [Op.stop, Op.resolved sampleError [], Op.stop]
    (by
      intro o ho
      simp at ho
      rcases ho with h | h | h
      · exact Or.inl h
      · exact Or.inr ⟨_, _, h⟩
      · exact Or.inl h)

/-! ## `start` -/

theorem start_impl_idle (w : World) (himpl : w.client.impl = none) :
    start_impl_ w =
      ⟨{ w.client.withCacheWritten with impl := some w.newLink },
       w.trace ++ [⟨Event.link_new w.newLink, w.client.withCacheWritten⟩,
         ⟨Event.link_start w.next_link,
           { w.client.withCacheWritten with impl := some w.newLink }⟩,
         ⟨Event.transport_connecting,
           { w.client.withCacheWritten with impl := some w.newLink }⟩],
       w.next_link + 1⟩ := by
  simp [start_impl_, himpl, emit, Client.withCacheWritten, World.newLink]

theorem start_cached (w : World) (himpl : w.client.impl = none)
    (hcache : w.client.config.endpoint_cache.defined = true) :
    start w = start_impl_ { w with client := { w.client with
      halt := false, server_endpoint := w.client.config.endpoint_cache.endpoint } } := by
  simp [start, himpl, hcache]

theorem start_clears_halt (w : World) (himpl : w.client.impl = none) :
    (start w).client.halt = false := by
  cases hcache : w.client.config.endpoint_cache.defined with
  | false => simp [start_resolving w himpl hcache]
  | true =>
    rw [start_cached w himpl hcache, start_impl_idle _ (by simpa using himpl)]
    simp [Client.withCacheWritten]

/-! ## After `stop` -/

/-- C5 (as stated) fails: `start()` called after `stop()` clears the halted flag; with
no endpoint cached it issues a resolve query, and with an endpoint cached it constructs
and starts a link. -/
theorem C5_restart_counterexample :
    (∃ w1, run acceptAll [Op.start] (stop sampleIdle) = some w1 ∧
      w1.client.halt = false ∧
      w1.events = [Event.resolver_cancel, Event.transport_pre_resolve,
        Event.async_resolve "vpn.example.net" "1194"]) ∧
    (∃ w1, run acceptAll [Op.start] (stop sampleCached) = some w1 ∧
      w1.client.halt = false ∧
      w1.client.impl = some ⟨0, ⟨Family.v4, 167772161, 1194⟩, 64, 8⟩ ∧
      w1.events = [Event.resolver_cancel,
        Event.link_new ⟨0, ⟨Family.v4, 167772161, 1194⟩, 64, 8⟩,
        Event.link_start 0, Event.transport_connecting]) :=
  ⟨⟨_, rfl, by decide, by decide⟩, ⟨_, rfl, by decide, by decide, by decide⟩⟩

/-- C5 (amended): once `stop()` has been called, every subsequent sequence of `stop()`,
send, resolve completion, link read callback and link error callback (any operations
and events other than `start()`) returns and leaves the client halted with no link
handle, issuing no resolve query and constructing or starting no link.  A `start()`
issued after `stop()` clears the halted flag and then issues a resolve query (endpoint
cache not defined) or constructs and starts a link on the cached endpoint (endpoint
cache defined). -/
theorem C5_stopped_until_start (link_send : LinkSend) (w : World) (ops : List Op)
    (hops : ∀ o ∈ ops, o ≠ Op.start) :
    (∃ w1 extra, run link_send ops (stop w) = some w1 ∧
      w1.client.halt = true ∧ w1.client.impl = none ∧
      w1.trace = (stop w).trace ++ extra ∧
      ∀ x ∈ extra, x.ev.isLinkBegin = false ∧ x.ev.isResolve = false) ∧
    (start (stop w)).client.halt = false ∧
    (w.client.config.endpoint_cache.defined = false →
      (start (stop w)).client.impl = none ∧
      (start (stop w)).events = (stop w).events ++
        [Event.transport_pre_resolve,
         Event.async_resolve w.client.config.server_host w.client.config.server_port]) ∧
    (w.client.config.endpoint_cache.defined = true →
      ∃ l, (start (stop w)).client.impl = some l ∧
        l.endpoint = w.client.config.endpoint_cache.endpoint ∧
        (start (stop w)).events = (stop w).events ++
          [Event.link_new l, Event.link_start l.id, Event.transport_connecting]) := by
  have hi : (stop w).client.impl = none := by simp [stop_client]
  have hh : (stop w).client.halt = true := by simp [stop_client]
  have hcfg : (stop w).client.config = w.client.config := by simp [stop_client]
  refine ⟨?_, start_clears_halt (stop w) hi, ?_, ?_⟩
  · obtain ⟨w1, ex, hr, hc, ht, _, hq⟩ := run_halted link_send ops (stop w) hh hi hops
    exact ⟨w1, ex, hr, by rw [hc, hh], by rw [hc, hi], ht,
      fun x hx => ⟨(hq x hx).2.1, (hq x hx).2.2⟩⟩
  · intro hcache
    rw [start_resolving (stop w) hi (by rw [hcfg]; exact hcache)]
    simp [World.events, hi, hcfg]
  · intro hcache
    have hcache1 : (stop w).client.config.endpoint_cache.defined = true := by
      rw [hcfg]; exact hcache
    rw [start_cached (stop w) hi hcache1, start_impl_idle _ (by simpa using hi)]
    refine ⟨_, rfl, ?_, ?_⟩
    · simp [World.newLink, hcfg]
    · simp [World.events, World.newLink]

theorem C5_stopped_until_start_witness :
    ∃ w1 extra, run acceptAll
        [Op.link_error "eof", Op.send [1, 2], Op.resolved ⟨"system", 0⟩ [], Op.stop,
          Op.link_read [3], Op.send_const [4]] (stop sampleActive) = some w1 ∧
      w1.client.halt = true ∧ w1.client.impl = none ∧
      w1.trace = (stop sampleActive).trace ++ extra ∧
      ∀ x ∈ extra, x.ev.isLinkBegin = false ∧ x.ev.isResolve = false :=
  (C5_stopped_until_start acceptAll sampleActive
    [Op.link_error "eof", Op.send [1, 2], Op.resolved ⟨"system", 0⟩ [], Op.stop,
      Op.link_read [3], Op.send_const [4]] (by decide)).1

/-! ## Cache skip -/

/-- C6: on a client with no link, `start()` with the endpoint cache defined issues no
resolve query and no pre-resolve event: it sets the working endpoint to the cached
endpoint and its only calls are the construction of one link on that endpoint, the
start of that link and one connecting event.  With the endpoint cache not defined its
only calls are one pre-resolve event and one resolve query for the configured host and
port, and no link is held afterwards. -/
theorem C6_cache_skip (w : World) (himpl : w.client.impl = none) :
    (w.client.config.endpoint_cache.defined = true →
      ∃ l, (start w).client.impl = some l ∧
        l.endpoint = w.client.config.endpoint_cache.endpoint ∧
        (start w).client.server_endpoint = w.client.config.endpoint_cache.endpoint ∧
        (start w).events = w.events ++
          [Event.link_new l, Event.link_start l.id, Event.transport_connecting]) ∧
    (w.client.config.endpoint_cache.defined = false →
      (start w).client.impl = none ∧
      (start w).events = w.events ++
        [Event.transport_pre_resolve,
         Event.async_resolve w.client.config.server_host w.client.config.server_port]) := by
  constructor
  · intro hcache
    rw [start_cached w himpl hcache, start_impl_idle _ (by simpa using himpl)]
    refine ⟨_, rfl, ?_, ?_, ?_⟩
    · simp [World.newLink]
    · simp [Client.withCacheWritten]
    · simp [World.events, World.newLink]
  · intro hcache
    rw [start_resolving w himpl hcache]
    simp [World.events, himpl]

theorem C6_cache_skip_witness :
    (∃ l, (start sampleCached).client.impl = some l ∧
        l.endpoint = sampleCached.client.config.endpoint_cache.endpoint ∧
        (start sampleCached).client.server_endpoint
          = sampleCached.client.config.endpoint_cache.endpoint ∧
        (start sampleCached).events = sampleCached.events ++
          [Event.link_new l, Event.link_start l.id, Event.transport_connecting]) ∧
    ((start sampleIdle).client.impl = none ∧
      (start sampleIdle).events = sampleIdle.events ++
        [Event.transport_pre_resolve,
         Event.async_resolve sampleIdle.client.config.server_host
           sampleIdle.client.config.server_port]) :=
  ⟨(C6_cache_skip sampleCached (by decide)).1 (by decide),
   (C6_cache_skip sampleIdle (by decide)).2 (by decide)⟩

/-! ## Cache population -/

theorem start_impl_client (w : World) :
    (start_impl_ w).client = { w.client.withCacheWritten with impl := some w.newLink } := by
  unfold start_impl_ emit
  cases h : w.client.impl <;> simp [h, Client.withCacheWritten, World.newLink]

theorem start_impl_trace (w : World) :
    ∃ mid, (start_impl_ w).trace =
        w.trace ++ [⟨Event.link_new w.newLink, w.client.withCacheWritten⟩] ++ mid ++
          [⟨Event.link_start w.newLink.id,
              { w.client.withCacheWritten with impl := some w.newLink }⟩,
           ⟨Event.transport_connecting,
              { w.client.withCacheWritten with impl := some w.newLink }⟩] ∧
      ∀ x ∈ mid, ∃ id, x.ev = Event.link_release id := by
  cases h : w.client.impl with
  | none =>
    refine ⟨[], ?_, by simp⟩
    simp [start_impl_, emit, h, Client.withCacheWritten, World.newLink]
  | some old =>
    refine ⟨[⟨Event.link_release old.id,
      { w.client.withCacheWritten with impl := some w.newLink }⟩], ?_, ?_⟩
    · simp [start_impl_, emit, h, Client.withCacheWritten, World.newLink]
    · intro x hx
      simp at hx
      exact ⟨old.id, by rw [hx]⟩

theorem run_teardown_keeps (link_send : LinkSend) (ops : List Op) :
    ∀ w : World, (∀ o ∈ ops, o = Op.stop ∨ ∃ m, o = Op.link_error m) →
      ∃ w1, run link_send ops w = some w1 ∧ w1.client.config = w.client.config ∧
        w1.client.server_endpoint = w.client.server_endpoint := by
  induction ops with
  | nil =>
    intro w _
    exact ⟨w, rfl, rfl, rfl⟩
  | cons o os ih =>
    intro w hops
    have hos : ∀ o1 ∈ os, o1 = Op.stop ∨ ∃ m, o1 = Op.link_error m :=
      fun o1 ho1 => hops o1 (List.mem_cons_of_mem o ho1)
    rcases hops o (List.mem_cons_self o os) with h | ⟨m, h⟩
    · subst h
      obtain ⟨w1, hr, hc, he⟩ := ih (stop w) hos
      refine ⟨w1, by simp [run, step, hr], ?_, ?_⟩
      · rw [hc, stop_client]
      · rw [he, stop_client]
    · subst h
      obtain ⟨w1, hr, hc, he⟩ := ih (tcp_error_handler m w) hos
      refine ⟨w1, by simp [run, step, hr], ?_, ?_⟩
      · rw [hc]
        simp [tcp_error_handler, emit, stop_client]
      · rw [he]
        simp [tcp_error_handler, emit, stop_client]

/-- C7: `start_impl_` (StartingLink) writes the endpoint cache before it constructs and
starts the link: the call that constructs the link already sees the cache defined and
holding the working endpoint, the link is constructed on that endpoint and started
afterwards, and on return the cached endpoint equals the working endpoint, which equals
the endpoint of the link held.  After any further sequence of link error callbacks and
`stop()` calls the cached endpoint still equals the working endpoint the link was
constructed with.  `start_impl_` is what the cached path of `start()` and a successful
resolve completion run. -/
theorem C7_cache_population (link_send : LinkSend) (w : World) (ops : List Op)
    (hops : ∀ o ∈ ops, o = Op.stop ∨ ∃ m, o = Op.link_error m) :
    (∃ l c post,
      (start_impl_ w).trace = w.trace ++ [⟨Event.link_new l, c⟩] ++ post ∧
      c.config.endpoint_cache.defined = true ∧
      c.config.endpoint_cache.endpoint = w.client.server_endpoint ∧
      l.endpoint = w.client.server_endpoint ∧
      (start_impl_ w).client.impl = some l ∧
      Event.link_start l.id ∈ post.map Call.ev) ∧
    (start_impl_ w).client.server_endpoint = w.client.server_endpoint ∧
    (start_impl_ w).client.config.endpoint_cache.defined = true ∧
    (start_impl_ w).client.config.endpoint_cache.endpoint
      = (start_impl_ w).client.server_endpoint ∧
    (∃ w2, run link_send ops (start_impl_ w) = some w2 ∧
      w2.client.config.endpoint_cache.defined = true ∧
      w2.client.config.endpoint_cache.endpoint = w2.client.server_endpoint ∧
      w2.client.server_endpoint = w.client.server_endpoint) ∧
    (w.client.impl = none → w.client.config.endpoint_cache.defined = true →
      start w = start_impl_ { w with client := { w.client with
        halt := false, server_endpoint := w.client.config.endpoint_cache.endpoint } }) ∧
    (∀ (error : ErrorCode) (e : Endpoint) (rest : List Endpoint),
      w.client.halt = false → error.failed = false →
      post_start_ error (e :: rest) w =
        some (start_impl_ { w with client := { w.client with server_endpoint := e } })) := by
  have hc := start_impl_client w
  refine ⟨?_, ?_, ?_, ?_, ?_, start_cached w, ?_⟩
  · obtain ⟨mid, ht, _⟩ := start_impl_trace w
    refine ⟨w.newLink, w.client.withCacheWritten, mid ++
      [⟨Event.link_start w.newLink.id,
          { w.client.withCacheWritten with impl := some w.newLink }⟩,
       ⟨Event.transport_connecting,
          { w.client.withCacheWritten with impl := some w.newLink }⟩], ?_, ?_, ?_, ?_, ?_, ?_⟩
    · rw [ht]
      simp
    · rfl
    · rfl
    · rfl
    · rw [hc]
    · simp
  · rw [hc]
    rfl
  · rw [hc]
    rfl
  · rw [hc]
    rfl
  · obtain ⟨w2, hr, hcfg, hep⟩ := run_teardown_keeps link_send ops (start_impl_ w) hops
    refine ⟨w2, hr, ?_, ?_, ?_⟩
    · rw [hcfg, hc]
      rfl
    · rw [hcfg, hep, hc]
      rfl
    · rw [hep, hc]
      rfl
  · intro error e rest hhalt herr
    exact post_start_succeeded w error e rest hhalt herr

theorem C7_cache_population_witness :
    ∃ w2, run acceptAll [Op.link_error "eof", Op.stop]
        (start_impl_ (start sampleIdle)) = some w2 ∧
      w2.client.config.endpoint_cache.defined = true ∧
      w2.client.config.endpoint_cache.endpoint = w2.client.server_endpoint ∧
      w2.client.server_endpoint = (start sampleIdle).client.server_endpoint :=
  (C7_cache_population acceptAll (start sampleIdle) [Op.link_error "eof", Op.stop]
    (by
      intro o ho
      simp at ho
      rcases ho with h | h
      · exact Or.inr ⟨_, h⟩
      · exact Or.inl h)).2.2.2.2.1

/-! ## First candidate -/

/-- C8: a successful resolve completion delivered to a client that is not halted, with
a non-empty candidate sequence, returns; the working endpoint, the cached endpoint and
the endpoint of the link constructed and held all equal the first candidate; and the
resulting world (client and record of calls) is the same for any other candidate
sequence with the same first element. -/
theorem C8_first_candidate (w : World) (error : ErrorCode) (e : Endpoint)
    (rest rest2 : List Endpoint) (hhalt : w.client.halt = false)
    (herr : error.failed = false) :
    ∃ w1 l, post_start_ error (e :: rest) w = some w1 ∧
      w1.client.server_endpoint = e ∧
      w1.client.config.endpoint_cache.defined = true ∧
      w1.client.config.endpoint_cache.endpoint = e ∧
      w1.client.impl = some l ∧ l.endpoint = e ∧
      Event.link_new l ∈ (w1.events.drop w.events.length) ∧
      post_start_ error (e :: rest2) w = some w1 := by
  refine ⟨start_impl_ { w with client := { w.client with server_endpoint := e } },
    World.newLink { w with client := { w.client with server_endpoint := e } },
    post_start_succeeded w error e rest hhalt herr, ?_, ?_, ?_, ?_, ?_, ?_,
    post_start_succeeded w error e rest2 hhalt herr⟩
  · rw [start_impl_client]
    rfl
  · rw [start_impl_client]
    rfl
  · rw [start_impl_client]
    rfl
  · rw [start_impl_client]
  · rfl
  · obtain ⟨mid, ht, _⟩ :=
      start_impl_trace { w with client := { w.client with server_endpoint := e } }
    simp only [World.events]
    rw [ht]
    simp

theorem C8_first_candidate_witness :
    ∃ w1 l, post_start_ ⟨"system", 0⟩
        [⟨Family.v6, 5, 443⟩, ⟨Family.v4, 167772161, 1194⟩] (start sampleIdle) = some w1 ∧
      w1.client.server_endpoint = ⟨Family.v6, 5, 443⟩ ∧
      w1.client.config.endpoint_cache.defined = true ∧
      w1.client.config.endpoint_cache.endpoint = ⟨Family.v6, 5, 443⟩ ∧
      w1.client.impl = some l ∧ l.endpoint = ⟨Family.v6, 5, 443⟩ ∧
      Event.link_new l ∈ (w1.events.drop (start sampleIdle).events.length) ∧
      post_start_ ⟨"system", 0⟩ [⟨Family.v6, 5, 443⟩] (start sampleIdle) = some w1 :=
  C8_first_candidate (start sampleIdle) ⟨"system", 0⟩ ⟨Family.v6, 5, 443⟩
    [⟨Family.v4, 167772161, 1194⟩] [] (by decide) (by decide)

/-! ## Send -/

/-- C9: both send variants.  With no link handle, `transport_send` and
`transport_send_const` return false, make no collaborator call and change nothing
(world and buffer are as before).  With a link held, each makes exactly one call, the
link's `send`, with a buffer whose content is the argument's, returns the boolean the
link's `send` returned, and leaves the client's fields unchanged; the borrowed variant
leaves the caller's buffer as it was. -/
theorem C9_send (link_send : LinkSend) (buf : Buffer) (w : World) :
    (w.client.impl = none →
      transport_send link_send buf w = (false, buf, w) ∧
      transport_send_const link_send buf w = (false, buf, w)) ∧
    (∀ l, w.client.impl = some l →
      transport_send link_send buf w =
        ((link_send w.trace buf).1, (link_send w.trace buf).2,
          ⟨w.client, w.trace ++ [⟨Event.link_send l.id buf, w.client⟩], w.next_link⟩) ∧
      transport_send_const link_send buf w =
        ((link_send w.trace buf).1, buf,
          ⟨w.client, w.trace ++ [⟨Event.link_send l.id buf, w.client⟩], w.next_link⟩)) := by
  constructor
  · intro himpl
    simp [transport_send, transport_send_const, send, send_const, himpl]
  · intro l himpl
    simp [transport_send, transport_send_const, send, send_const, himpl, emit]

theorem C9_send_witness :
    (transport_send acceptAll [1, 2, 3] sampleIdle = (false, [1, 2, 3], sampleIdle) ∧
      transport_send_const acceptAll [1, 2, 3] sampleIdle = (false, [1, 2, 3], sampleIdle)) ∧
    (transport_send acceptAll [1, 2, 3] sampleActive =
        (true, [], ⟨sampleActive.client, sampleActive.trace ++
          [⟨Event.link_send 0 [1, 2, 3], sampleActive.client⟩], sampleActive.next_link⟩) ∧
      transport_send_const acceptAll [1, 2, 3] sampleActive =
        (true, [1, 2, 3], ⟨sampleActive.client, sampleActive.trace ++
          [⟨Event.link_send 0 [1, 2, 3], sampleActive.client⟩], sampleActive.next_link⟩)) :=
  ⟨(C9_send acceptAll [1, 2, 3] sampleIdle).1 (by decide),
   (C9_send acceptAll [1, 2, 3] sampleActive).2
     ⟨0, ⟨Family.v4, 167772161, 1194⟩, 64, 8⟩ (by decide)⟩

/-! ## Transport error -/

/-- C10: a link error callback with diagnostic text `m` on a client holding a link `l`
calls the stop of `l` once and releases it once, cancels the resolver, and then
delivers exactly one transport error to the parent; no resolve query is issued and no
link is constructed or started.  The client ends halted with no link handle and is
otherwise unchanged.  The error message is `"Transport error on '"`, the configured
host, `": "` and `m`, so it contains both the host and `m`. -/
theorem C10_transport_error (w : World) (l : Link) (m : String)
    (himpl : w.client.impl = some l) :
    (tcp_error_handler m w).trace = w.trace ++
      [⟨Event.link_stop l.id, w.client⟩,
       ⟨Event.link_release l.id, { w.client with impl := none }⟩,
       ⟨Event.resolver_cancel, { w.client with impl := none }⟩,
       ⟨Event.transport_error ⟨ExceptionKind.tcp_transport_error,
           transport_error_text w.client.config.server_host m⟩,
         { w.client with impl := none, halt := true }⟩] ∧
    (tcp_error_handler m w).client = { w.client with impl := none, halt := true } ∧
    (tcp_error_handler m w).next_link = w.next_link ∧
    transport_error_text w.client.config.server_host m
      = "Transport error on \x27" ++ w.client.config.server_host ++ ": " ++ m ∧
    occursIn w.client.config.server_host
      (transport_error_text w.client.config.server_host m) ∧
    occursIn m (transport_error_text w.client.config.server_host m) := by
  refine ⟨?_, ?_, ?_, rfl, ?_, ?_⟩
  · simp [tcp_error_handler, emit, stop_trace_some w l himpl, stop_client]
  · simp [tcp_error_handler, emit, stop_client]
  · simp [tcp_error_handler, emit, stop_next_link]
  · refine ⟨"Transport error on \x27".data, (": " ++ m).data, ?_⟩
    simp [transport_error_text, String.data_append]
  · refine ⟨("Transport error on \x27" ++ w.client.config.server_host ++ ": ").data, [], ?_⟩
    simp [transport_error_text, String.data_append]

theorem C10_transport_error_witness :
    (tcp_error_handler "eof" sampleActive).events =
      [Event.link_new ⟨0, ⟨Family.v4, 167772161, 1194⟩, 64, 8⟩, Event.link_start 0,
       Event.transport_connecting, Event.link_stop 0, Event.link_release 0,
       Event.resolver_cancel,
       Event.transport_error ⟨ExceptionKind.tcp_transport_error,
         "Transport error on \x27vpn.example.net: eof"⟩] := by
  have h := (C10_transport_error sampleActive ⟨0, ⟨Family.v4, 167772161, 1194⟩, 64, 8⟩
    "eof" (by decide)).1
  rw [World.events, h]
  decide

/-! ## Resolve error message -/

/-- C11 (as stated) fails: with host `vpn.example.net` and port `1194` configured, the
resolve error delivered to the parent on a resolver failure has a message in which the
port does not occur. -/
theorem C11_port_absent_counterexample :
    (start sampleIdle).client.config.server_port = "1194" ∧
    ∃ w1, post_start_ sampleError [] (start sampleIdle) = some w1 ∧
      w1.events.getLast? = some (Event.transport_error
        ⟨ExceptionKind.tcp_transport_resolve_error,
          "DNS resolve error on \x27vpn.example.net\x27 for TCP session: asio.netdb:1"⟩) ∧
      ¬ occursIn "1194"
        "DNS resolve error on \x27vpn.example.net\x27 for TCP session: asio.netdb:1" := by
  refine ⟨by decide, _, rfl, by decide, ?_⟩
  intro h
  have h9 : '9' ∈
      "DNS resolve error on \x27vpn.example.net\x27 for TCP session: asio.netdb:1".data :=
    h.subset (by decide)
  revert h9
  decide

/-- C11 (amended): the resolve error delivered to the parent on a resolver failure
embeds the configured host and the text of the error code, and nothing of the
configured port: for every configuration and resolver error `e`, on a client that is
not halted the completion returns, its last call is the delivery of a resolve error
whose message is `"DNS resolve error on '"`, the host, `"' for TCP session: "` and the
text of `e` (category name, colon, value); the message contains the host and the text
of `e`. -/
theorem C11_resolve_error_message (w : World) (error : ErrorCode) (it : List Endpoint)
    (hhalt : w.client.halt = false) (herr : error.failed = true) :
    ∃ w1, post_start_ error it w = some w1 ∧
      w1.events.getLast? = some (Event.transport_error
        ⟨ExceptionKind.tcp_transport_resolve_error,
          resolve_error_text w.client.config.server_host error⟩) ∧
      resolve_error_text w.client.config.server_host error =
        "DNS resolve error on \x27" ++ w.client.config.server_host
          ++ "\x27 for TCP session: " ++ error.text ∧
      error.text = error.category ++ ":" ++ toString error.value ∧
      occursIn w.client.config.server_host
        (resolve_error_text w.client.config.server_host error) ∧
      occursIn error.text (resolve_error_text w.client.config.server_host error) := by
  refine ⟨_, post_start_failed w error it hhalt herr, ?_, rfl, rfl, ?_, ?_⟩
  · simp [emit, World.events]
  · refine ⟨"DNS resolve error on \x27".data,
      ("\x27 for TCP session: " ++ error.text).data, ?_⟩
    simp [resolve_error_text, String.data_append]
  · refine ⟨("DNS resolve error on \x27" ++ w.client.config.server_host
      ++ "\x27 for TCP session: ").data, [], ?_⟩
    simp [resolve_error_text, String.data_append]

theorem C11_resolve_error_message_witness :
    ∃ w1, post_start_ sampleError [] (start sampleIdle) = some w1 ∧
      w1.events.getLast? = some (Event.transport_error
        ⟨ExceptionKind.tcp_transport_resolve_error,
          resolve_error_text "vpn.example.net" sampleError⟩) :=
  let ⟨w1, h1, h2, _⟩ :=
    C11_resolve_error_message (start sampleIdle) sampleError [] (by decide) (by decide)
  ⟨w1, h1, h2⟩

/-! ## `start` with a link held -/

/-- C12: `start()` on a client that holds a link is a no-op: the world is returned as
it is, so the link handle, working endpoint, halted flag and endpoint cache are
unchanged and no collaborator call is made. -/
theorem C12_start_noop_when_active (w : World) (l : Link) (himpl : w.client.impl = some l) :
    start w = w := by
  simp [start, himpl]

theorem C12_start_noop_when_active_witness : start sampleActive = sampleActive :=
  C12_start_noop_when_active sampleActive ⟨0, ⟨Family.v4, 167772161, 1194⟩, 64, 8⟩
    (by decide)

/-! ## The endpoint cache under failure and teardown -/

theorem tcp_error_handler_client (m : String) (w : World) :
    (tcp_error_handler m w).client = { w.client with impl := none, halt := true } := by
  simp [tcp_error_handler, emit, stop_client]

theorem send_client (link_send : LinkSend) (buf : Buffer) (w : World) :
    (transport_send link_send buf w).2.2.client = w.client ∧
    (transport_send_const link_send buf w).2.2.client = w.client := by
  cases h : w.client.impl <;>
    simp [transport_send, transport_send_const, send, send_const, h, emit]

theorem post_start_discarded_or_failed (w : World) (error : ErrorCode) (it : List Endpoint)
    (h : error.failed = true ∨ w.client.halt = true) :
    ∃ w1, post_start_ error it w = some w1 ∧ w1.client.config = w.client.config ∧
      w1.client.server_endpoint = w.client.server_endpoint := by
  cases hhalt : w.client.halt with
  | true => exact ⟨w, post_start_halted w error it hhalt, rfl, rfl⟩
  | false =>
    rcases h with herr | hh
    · refine ⟨_, post_start_failed w error it hhalt herr, ?_, ?_⟩ <;>
        simp [emit, stop_client]
    · rw [hhalt] at hh
      cases hh

theorem start_keeps_cache (w : World) :
    (start w).client.config.endpoint_cache = w.client.config.endpoint_cache := by
  cases himpl : w.client.impl with
  | some l => simp [start, himpl]
  | none =>
    cases hcache : w.client.config.endpoint_cache.defined with
    | false => simp [start_resolving w himpl hcache]
    | true =>
      rw [start_cached w himpl hcache, start_impl_client]
      cases hc : w.client.config.endpoint_cache with
      | mk d e =>
        rw [hc] at hcache
        simp only [EndpointCache.defined] at hcache
        subst hcache
        simp [Client.withCacheWritten, EndpointCache.set_endpoint, EndpointCache.endpoint, hc]

/-- An operation or event that changes the endpoint cache is a successful resolve
completion delivered to a client that is not halted. -/
theorem step_cache_change (link_send : LinkSend) (o : Op) (w w1 : World)
    (hs : step link_send o w = some w1)
    (hne : w1.client.config.endpoint_cache ≠ w.client.config.endpoint_cache) :
    ∃ error e rest, o = Op.resolved error (e :: rest) ∧ error.failed = false ∧
      w.client.halt = false ∧
      w1 = start_impl_ { w with client := { w.client with server_endpoint := e } } := by
  cases o with
  | start =>
    simp only [step, Option.some.injEq] at hs
    subst hs
    exact absurd (start_keeps_cache w) hne
  | stop =>
    simp only [step, Option.some.injEq] at hs
    subst hs
    exact absurd (by rw [stop_client]) hne
  | send buf =>
    simp only [step, Option.some.injEq] at hs
    subst hs
    exact absurd (by rw [(send_client link_send buf w).1]) hne
  | send_const buf =>
    simp only [step, Option.some.injEq] at hs
    subst hs
    exact absurd (by rw [(send_client link_send buf w).2]) hne
  | link_read buf =>
    simp only [step, Option.some.injEq] at hs
    subst hs
    exact absurd rfl hne
  | link_error m =>
    simp only [step, Option.some.injEq] at hs
    subst hs
    exact absurd (by rw [tcp_error_handler_client]) hne
  | resolved error it =>
    simp only [step] at hs
    cases hhalt : w.client.halt with
    | true =>
      rw [post_start_halted w error it hhalt] at hs
      cases hs
      exact absurd rfl hne
    | false =>
      cases herr : error.failed with
      | true =>
        obtain ⟨w2, h2, hc, _⟩ := post_start_discarded_or_failed w error it (Or.inl herr)
        rw [h2] at hs
        cases hs
        exact absurd (by rw [hc]) hne
      | false =>
        cases it with
        | nil => simp [post_start_, hhalt, herr] at hs
        | cons e rest =>
          rw [post_start_succeeded w error e rest hhalt herr] at hs
          cases hs
          exact ⟨error, e, rest, rfl, herr, rfl, rfl⟩

/-- C13: failure and teardown never clear or alter the endpoint cache.  From every
client state, `stop()`, destruction, a resolve completion carrying an error, a resolve
completion discarded because the client is halted, a link error callback, a link read
callback and both send variants leave the endpoint cache (defined flag and stored
endpoint) as it was.  An operation or event whose result has a different endpoint cache
is a successful resolve completion on a client that is not halted, that is an entry to
`start_impl_`. -/
theorem C13_cache_kept_by_failure (link_send : LinkSend) (w : World) :
    (stop w).client.config.endpoint_cache = w.client.config.endpoint_cache ∧
    (destroy w).client.config.endpoint_cache = w.client.config.endpoint_cache ∧
    (∀ (error : ErrorCode) (it : List Endpoint),
      error.failed = true ∨ w.client.halt = true →
      ∃ w1, post_start_ error it w = some w1 ∧
        w1.client.config.endpoint_cache = w.client.config.endpoint_cache) ∧
    (∀ m : String,
      (tcp_error_handler m w).client.config.endpoint_cache = w.client.config.endpoint_cache) ∧
    (∀ buf : Buffer,
      (tcp_read_handler buf w).client.config.endpoint_cache = w.client.config.endpoint_cache) ∧
    (∀ buf : Buffer,
      (transport_send link_send buf w).2.2.client.config.endpoint_cache
        = w.client.config.endpoint_cache ∧
      (transport_send_const link_send buf w).2.2.client.config.endpoint_cache
        = w.client.config.endpoint_cache) ∧
    (∀ (o : Op) (w1 : World), step link_send o w = some w1 →
      w1.client.config.endpoint_cache ≠ w.client.config.endpoint_cache →
      ∃ error e rest, o = Op.resolved error (e :: rest) ∧ error.failed = false ∧
        w.client.halt = false ∧
        w1 = start_impl_ { w with client := { w.client with server_endpoint := e } }) := by
  refine ⟨by rw [stop_client], ?_, ?_, ?_, ?_, ?_, ?_⟩
  · have h : destroy w = stop w := rfl
    rw [h, stop_client]
  · intro error it h
    obtain ⟨w1, h1, hc, _⟩ := post_start_discarded_or_failed w error it h
    exact ⟨w1, h1, by rw [hc]⟩
  · intro m
    rw [tcp_error_handler_client]
  · intro buf
    rfl
  · intro buf
    exact ⟨by rw [(send_client link_send buf w).1], by rw [(send_client link_send buf w).2]⟩
  · intro o w1 hs hne
    exact step_cache_change link_send o w w1 hs hne

theorem C13_cache_kept_by_failure_witness :
    ∃ w1, post_start_ sampleError [] sampleCached = some w1 ∧
      w1.client.config.endpoint_cache = sampleCached.client.config.endpoint_cache :=
  (C13_cache_kept_by_failure acceptAll sampleCached).2.2.1 sampleError []
    (Or.inl (by decide))

/-! ## Inbound relay -/

theorem run_link_reads (link_send : LinkSend) (bufs : List Buffer) :
    ∀ w : World, run link_send (bufs.map Op.link_read) w =
      some ⟨w.client,
        w.trace ++ bufs.map (fun b => (⟨Event.transport_recv b, w.client⟩ : Call)),
        w.next_link⟩ := by
  induction bufs with
  | nil =>
    intro w
    simp [run]
  | cons b bs ih =>
    intro w
    simp [run, step, ih, tcp_read_handler, emit]

/-- C14: inbound relay.  For every finite sequence of buffers delivered by the link's
read callback, the handler returns each time, the calls added to the record are
exactly one call of the parent's receive handler per buffer, with the same buffers in
the same order, and the client's own fields are the same before, during and after each
read. -/
theorem C14_inbound_relay (link_send : LinkSend) (bufs : List Buffer) (w : World) :
    ∃ w1, run link_send (bufs.map Op.link_read) w = some w1 ∧
      w1.client = w.client ∧
      w1.trace = w.trace ++ bufs.map (fun b => (⟨Event.transport_recv b, w.client⟩ : Call)) ∧
      w1.events = w.events ++ bufs.map Event.transport_recv := by
  refine ⟨_, run_link_reads link_send bufs w, rfl, rfl, ?_⟩
  simp [World.events, Function.comp_def]

/-! ## Endpoint queries -/

/-- C16: `server_endpoint_info` reports the configured host and port, the protocol tag
`"TCP"` followed by the version string of the working endpoint's address, and the
textual form of that address; the address queried has the family and the numeric
address of the working endpoint, so the tag and the text are those of an IPv4 address
for an IPv4 endpoint and of an IPv6 address for an IPv6 endpoint.  The query leaves the
world as it is. -/
theorem C16_server_endpoint_info (version_string to_string : IP.Addr → String) (w : World) :
    (server_endpoint_info version_string to_string w).1.host = w.client.config.server_host ∧
    (server_endpoint_info version_string to_string w).1.port = w.client.config.server_port ∧
    (server_endpoint_info version_string to_string w).1.proto
      = "TCP" ++ version_string (server_endpoint_addr w) ∧
    (server_endpoint_info version_string to_string w).1.ip_addr
      = to_string (server_endpoint_addr w) ∧
    server_endpoint_addr w
      = ⟨w.client.server_endpoint.family, w.client.server_endpoint.address⟩ ∧
    (server_endpoint_info version_string to_string w).2 = w :=
  ⟨rfl, rfl, rfl, rfl, rfl, rfl⟩

/-! ## Factory defaults -/

/-- C17: the configuration made by `new_obj` has send-queue bound 64, free-list bound 8
and no endpoint cached; the client made from any configuration by `new_client_obj` is
bound to that configuration, holds no link, is not halted, and has made no collaborator
call (no resolve query, no parent event, no link constructed). -/
theorem C17_factory_defaults :
    ClientConfig.new_obj.send_queue_max_size = 64 ∧
    ClientConfig.new_obj.free_list_max_size = 8 ∧
    ClientConfig.new_obj.endpoint_cache.defined = false ∧
    ∀ config : ClientConfig,
      (ClientConfig.new_client_obj config).client.config = config ∧
      (ClientConfig.new_client_obj config).client.impl = none ∧
      (ClientConfig.new_client_obj config).client.halt = false ∧
      (ClientConfig.new_client_obj config).trace = [] ∧
      (ClientConfig.new_client_obj config).next_link = 0 :=
  ⟨rfl, rfl, rfl, fun _ => ⟨rfl, rfl, rfl, rfl, rfl⟩⟩

/-! ## One link at a time -/

/-- C18: the code at the failing input.  On a fresh client with no endpoint cached,
`start()` called twice issues two resolve queries; when both completions succeed, the
second one constructs and starts link 1 over the held link 0, which was started and is
only released: its `stop` is never called. -/
theorem C18_double_start_replaces_link :
    ∃ w1, run acceptAll
        [Op.start, Op.start, Op.resolved ⟨"system", 0⟩ [⟨Family.v6, 5, 443⟩],
          Op.resolved ⟨"system", 0⟩ [⟨Family.v6, 5, 443⟩]]
        (ClientConfig.new_client_obj sampleConfig) = some w1 ∧
      w1.events =
        [Event.transport_pre_resolve, Event.async_resolve "vpn.example.net" "1194",
         Event.transport_pre_resolve, Event.async_resolve "vpn.example.net" "1194",
         Event.link_new ⟨0, ⟨Family.v6, 5, 443⟩, 64, 8⟩, Event.link_start 0,
         Event.transport_connecting,
         Event.link_new ⟨1, ⟨Family.v6, 5, 443⟩, 64, 8⟩, Event.link_release 0,
         Event.link_start 1, Event.transport_connecting] ∧
      w1.client.impl = some ⟨1, ⟨Family.v6, 5, 443⟩, 64, 8⟩ ∧
      Event.link_start 0 ∈ w1.events ∧ Event.link_stop 0 ∉ w1.events :=
  ⟨_, rfl, by decide, by decide, by decide, by decide⟩

/-! ## Late events on a halted client -/

theorem step_halted_has_no_link (link_send : LinkSend) (o : Op) (w w1 : World)
    (hs : step link_send o w = some w1)
    (hinv : w.client.halt = true → w.client.impl = none) :
    w1.client.halt = true → w1.client.impl = none := by
  cases o with
  | start =>
    simp only [step, Option.some.injEq] at hs
    subst hs
    cases himpl : w.client.impl with
    | none =>
      intro h
      rw [start_clears_halt w himpl] at h
      cases h
    | some l =>
      have hw : start w = w := by simp [start, himpl]
      rw [hw]
      exact hinv
  | stop =>
    simp only [step, Option.some.injEq] at hs
    subst hs
    intro _
    simp [stop_client]
  | send buf =>
    simp only [step, Option.some.injEq] at hs
    subst hs
    rw [(send_client link_send buf w).1]
    exact hinv
  | send_const buf =>
    simp only [step, Option.some.injEq] at hs
    subst hs
    rw [(send_client link_send buf w).2]
    exact hinv
  | link_read buf =>
    simp only [step, Option.some.injEq] at hs
    subst hs
    exact hinv
  | link_error m =>
    simp only [step, Option.some.injEq] at hs
    subst hs
    intro _
    simp [tcp_error_handler_client]
  | resolved error it =>
    simp only [step] at hs
    cases hhalt : w.client.halt with
    | true =>
      rw [post_start_halted w error it hhalt] at hs
      cases hs
      exact hinv
    | false =>
      cases herr : error.failed with
      | true =>
        rw [post_start_failed w error it hhalt herr] at hs
        cases hs
        intro _
        simp [emit, stop_client]
      | false =>
        cases it with
        | nil => simp [post_start_, hhalt, herr] at hs
        | cons e rest =>
          rw [post_start_succeeded w error e rest hhalt herr] at hs
          cases hs
          intro h
          rw [start_impl_client] at h
          simp [Client.withCacheWritten, hhalt] at h

theorem run_halted_has_no_link (link_send : LinkSend) (ops : List Op) :
    ∀ w w1 : World, run link_send ops w = some w1 →
      (w.client.halt = true → w.client.impl = none) →
      w1.client.halt = true → w1.client.impl = none := by
  induction ops with
  | nil =>
    intro w w1 hr hinv
    simp only [run, Option.some.injEq] at hr
    subst hr
    exact hinv
  | cons o os ih =>
    intro w w1 hr hinv
    simp only [run] at hr
    cases hs : step link_send o w with
    | none => simp [hs] at hr
    | some w2 =>
      rw [hs] at hr
      exact ih w2 w1 hr (step_halted_has_no_link link_send o w w2 hs hinv)

/-- C19: on a halted client the late asynchronous events change nothing of the
client.  For every client state with `halt = true` that holds no link, or that was
reached from a freshly constructed client by any sequence of operations and events
(then it holds no link either), a resolve completion (success or error, any
candidates) returns the world as it is, and a link read callback and a link error
callback leave the client's fields (link handle, working endpoint, halted flag and
configuration) unchanged. -/
theorem C19_halted_async_events (link_send : LinkSend) (w : World)
    (hhalt : w.client.halt = true)
    (hsrc : w.client.impl = none ∨
      ∃ config ops, run link_send ops (ClientConfig.new_client_obj config) = some w) :
    w.client.impl = none ∧
    (∀ (error : ErrorCode) (it : List Endpoint), post_start_ error it w = some w) ∧
    (∀ buf : Buffer, (tcp_read_handler buf w).client = w.client) ∧
    (∀ m : String, (tcp_error_handler m w).client = w.client) := by
  have himpl : w.client.impl = none := by
    rcases hsrc with h | ⟨config, ops, hr⟩
    · exact h
    · exact run_halted_has_no_link link_send ops _ w hr (fun h => by cases h) hhalt
  refine ⟨himpl, fun error it => post_start_halted w error it hhalt, fun _ => rfl, ?_⟩
  intro m
  rw [tcp_error_handler_client, ← stop_client]
  exact stop_halted_idle w hhalt himpl

theorem C19_halted_async_events_witness :
    (stop sampleActive).client.impl = none ∧
    (∀ (error : ErrorCode) (it : List Endpoint),
      post_start_ error it (stop sampleActive) = some (stop sampleActive)) ∧
    (∀ buf : Buffer,
      (tcp_read_handler buf (stop sampleActive)).client = (stop sampleActive).client) ∧
    (∀ m : String,
      (tcp_error_handler m (stop sampleActive)).client = (stop sampleActive).client) :=
  C19_halted_async_events acceptAll (stop sampleActive) (by decide)
    (Or.inr ⟨sampleCached.client.config, [Op.start, Op.stop], by decide⟩)

/-- C20: the code at the failing input.  On a fresh client with no endpoint cached,
`start()`, `start()`, two successful resolve completions and then `stop()` leave the
client halted with no link handle, while link 0, started by the first completion, has
never had its `stop` called (only link 1, the one held, is stopped).  A read callback
and an error callback arriving then are not rejected: the halted client hands the
buffer to the parent's receive handler, and delivers a transport error to the parent.
A resolve completion arriving in the same state is discarded. -/
theorem C20_halted_client_forwards_link_events :
    ∃ w1, run acceptAll
        [Op.start, Op.start, Op.resolved ⟨"system", 0⟩ [⟨Family.v6, 5, 443⟩],
          Op.resolved ⟨"system", 0⟩ [⟨Family.v6, 5, 443⟩], Op.stop]
        (ClientConfig.new_client_obj sampleConfig) = some w1 ∧
      w1.client.halt = true ∧ w1.client.impl = none ∧
      Event.link_start 0 ∈ w1.events ∧ Event.link_stop 0 ∉ w1.events ∧
      Event.link_stop 1 ∈ w1.events ∧
      (tcp_read_handler [1, 2] w1).events = w1.events ++ [Event.transport_recv [1, 2]] ∧
      (tcp_error_handler "eof" w1).events = w1.events ++
        [Event.resolver_cancel,
         Event.transport_error ⟨ExceptionKind.tcp_transport_error,
           "Transport error on \x27vpn.example.net: eof"⟩] ∧
      ∀ (error : ErrorCode) (it : List Endpoint), post_start_ error it w1 = some w1 :=
  ⟨_, rfl, by decide, by decide, by decide, by decide, by decide, by decide, by decide,
    fun error it => post_start_halted _ error it (by decide)⟩

end TCPTransport

namespace CryptoDCSelect

/-! ## Selection of the data channel implementation -/

/-- C15: `new_obj` raises `crypto_dc_select` if and only if the flags of the chosen
algorithm contain neither `CBC_HMAC` nor `AEAD`; then no pipeline object is returned and
the error text is the name of the algorithm followed by
`": only CBC/HMAC and AEAD cipher modes supported"`, so it names the algorithm.
Otherwise it returns one pipeline: the CBC-HMAC construction whenever the `CBC_HMAC`
flag is set (also when `AEAD` is set as well), and the AEAD construction exactly when
`AEAD` is set and `CBC_HMAC` is not. -/
theorem C15_new_obj_selection (CBC_HMAC AEAD : Nat) (get : Nat → Alg)
    (dc_settings : CryptoDCSettingsData) :
    ((∃ e, new_obj CBC_HMAC AEAD get dc_settings = Except.error e) ↔
      ((get dc_settings.cipher).flags &&& CBC_HMAC = 0 ∧
        (get dc_settings.cipher).flags &&& AEAD = 0)) ∧
    (∀ e, new_obj CBC_HMAC AEAD get dc_settings = Except.error e →
      e.message = (get dc_settings.cipher).name
        ++ ": only CBC/HMAC and AEAD cipher modes supported" ∧
      (get dc_settings.cipher).name.data <:+: e.message.data) ∧
    ((get dc_settings.cipher).flags &&& CBC_HMAC ≠ 0 →
      new_obj CBC_HMAC AEAD get dc_settings
        = Except.ok (CryptoDCContext.CryptoContextCHM dc_settings)) ∧
    (new_obj CBC_HMAC AEAD get dc_settings
        = Except.ok (CryptoDCContext.AEADCryptoContext dc_settings) ↔
      ((get dc_settings.cipher).flags &&& AEAD ≠ 0 ∧
        (get dc_settings.cipher).flags &&& CBC_HMAC = 0)) := by
  by_cases hc : (get dc_settings.cipher).flags &&& CBC_HMAC = 0 <;>
    by_cases ha : (get dc_settings.cipher).flags &&& AEAD = 0
  all_goals
    refine ⟨?_, ?_, ?_, ?_⟩
    · simp [new_obj, hc, ha]
    · intro e he
      simp only [new_obj, hc, ha, ne_eq, not_true_eq_false, not_false_eq_true, if_true,
        if_false, reduceCtorEq, Except.error.injEq] at he
      try subst he
      try exact ⟨rfl, ⟨[], ": only CBC/HMAC and AEAD cipher modes supported".data,
        by simp [String.data_append]⟩⟩
    · simp [new_obj, hc, ha]
    · simp [new_obj, hc, ha]

theorem C15_new_obj_selection_witness :
    new_obj 1 2 sampleGet ⟨0, 0⟩ = Except.ok (CryptoDCContext.CryptoContextCHM ⟨0, 0⟩) ∧
    new_obj 1 2 sampleGet ⟨2, 0⟩ = Except.ok (CryptoDCContext.CryptoContextCHM ⟨2, 0⟩) ∧
    (new_obj 1 2 sampleGet ⟨1, 0⟩ = Except.ok (CryptoDCContext.AEADCryptoContext ⟨1, 0⟩) ↔
      ((sampleGet 1).flags &&& 2 ≠ 0 ∧ (sampleGet 1).flags &&& 1 = 0)) ∧
    ((∃ e, new_obj 1 2 sampleGet ⟨7, 0⟩ = Except.error e) ↔
      ((sampleGet 7).flags &&& 1 = 0 ∧ (sampleGet 7).flags &&& 2 = 0)) :=
  ⟨(C15_new_obj_selection 1 2 sampleGet ⟨0, 0⟩).2.2.1 (by decide),
   (C15_new_obj_selection 1 2 sampleGet ⟨2, 0⟩).2.2.1 (by decide),
   (C15_new_obj_selection 1 2 sampleGet ⟨1, 0⟩).2.2.2,
   (C15_new_obj_selection 1 2 sampleGet ⟨7, 0⟩).1⟩

end CryptoDCSelect
